import Mathlib

/-!
Verification of the server-side `Subscription` core of node-opcua
(`lib/server/subscription.js`).

The JavaScript class is shallowly embedded as a Lean state record
(`Subscription`) together with pure state-transition functions, one per
source method, keeping the source's names and branch structure.  JS
numbers used as integer counters are modelled as `Int`; the deadband
value, an IEEE double only ever compared against 0 and 100, is
modelled as `JsDouble` — NaN or a rational — with the IEEE rule that
every comparison against NaN is false; JS
`undefined`-or-number option fields are modelled as `Option Int`, and
the JS `x || d` defaulting idiom (which treats both `undefined` and `0`
as falsy) is made explicit by `jsOr`.  Functions that can throw
(`better-assert` assertions, calling a non-function) return
`Except JsError _`.  External collaborators (the Publish Engine, the
Address Space, `indexRange.isValid()`, `is_valid_dataEncoding`) enter
the model as oracle parameters carrying exactly the boolean / lookup
results the subscription code branches on.  Wall-clock values
(`publishTime`, `setInterval` scheduling) and the process-wide object
registry are outside the state; event emission is recorded in an
explicit `events` log.
-/

namespace Opcua

/-- Status codes surfaced by the subscription core (subset of
`StatusCodes` actually used by `lib/server/subscription.js`). -/
inductive StatusCodes
  | Good
  | BadSequenceNumberUnknown
  | BadNodeIdUnknown
  | BadNodeIdInvalid
  | BadAttributeIdInvalid
  | BadIndexRangeInvalid
  | BadDataEncodingInvalid
  | BadDataEncodingUnsupported
  | BadFilterNotAllowed
  | BadDeadbandFilterInvalid
  | BadMonitoredItemIdInvalid
  | BadTimeout
  deriving Repr, DecidableEq

/-- The subscription state enum from the top of the source file. -/
inductive SubscriptionState
  | CLOSED
  | CREATING
  | NORMAL
  | LATE
  | KEEPALIVE
  | TERMINATED
  deriving Repr, DecidableEq

/-- Attribute ids the validation code branches on (`Value`,
`EventNotifier`, `INVALID`); `DisplayName` stands for any other valid
attribute. -/
inductive AttributeIds
  | Value
  | EventNotifier
  | INVALID
  | DisplayName
  deriving Repr, DecidableEq

/-- Deadband type of a `DataChangeFilter`. -/
inductive DeadbandType
  | NoDeadband
  | Absolute
  | Percent
  deriving Repr, DecidableEq

/-- An IEEE double as the deadband comparisons observe it: NaN, or an
ordered value modelled by a rational (comparisons on doubles and on
their rational values agree).  NaN is wire-encodable and must be kept:
every IEEE comparison against it is false. -/
inductive JsDouble
  | nan
  | val (q : Rat)
  deriving Repr, DecidableEq

/-- JS `x <= c` on a double (false when `x` is NaN). -/
def jsLe (x : JsDouble) (c : Rat) : Bool :=
  match x with
  | JsDouble.nan => false
  | JsDouble.val q => q ≤ c

/-- JS `x >= c` on a double (false when `x` is NaN). -/
def jsGe (x : JsDouble) (c : Rat) : Bool :=
  match x with
  | JsDouble.nan => false
  | JsDouble.val q => c ≤ q

/-- A `DataChangeFilter`.  `deadbandValue` is an IEEE double in the
source; only the comparisons `<= 0` and `>= 100` are performed on it. -/
structure DataChangeFilter where
  deadbandType : DeadbandType
  deadbandValue : JsDouble
  deriving Repr, DecidableEq

/-- The three filter variants dispatched on by `_process_filter` /
`__validateFilter` (payloads irrelevant to validation are omitted). -/
inductive FilterVariant
  | eventFilter
  | dataChangeFilter (filter : DataChangeFilter)
  | aggregateFilter
  deriving Repr, DecidableEq

/-- A notification extracted from one monitored item: either a
`MonitoredItemNotification` (data change) or an `EventFieldList`
(event); the payload is abstracted to a token. -/
inductive ItemNotification
  | monitoredItemNotification (payload : Nat)
  | eventFieldList (payload : Nat)
  deriving Repr, DecidableEq

/-- One entry of a `NotificationMessage.notificationData` array. -/
inductive NotificationData
  | dataChangeNotification (monitoredItems : List Nat)
  | eventNotificationList (events : List Nat)
  | statusChangeNotification (statusCode : StatusCodes)
  deriving Repr, DecidableEq

/-- A `NotificationMessage` (sequence number plus 1-or-2 notification
payloads; `publishTime` is wall clock and not modelled). -/
structure NotificationMessage where
  sequenceNumber : Nat
  notificationData : List NotificationData
  deriving Repr, DecidableEq

/-- The record pushed on `_pending_notifications` /
`_sent_notifications` by `addNotificationMessage`: it carries the
message, the tick at which it was queued, and a copy of the sequence
number. -/
structure NotificationRec where
  notification : NotificationMessage
  start_tick : Int
  sequenceNumber : Nat
  deriving Repr, DecidableEq

/-- A monitored item, reduced to the capability the subscription core
consumes on the tick path: its queue of not-yet-extracted notifications
(`extractMonitoredItemNotifications` drains it).  Sampling and
monitoring-mode internals live in `lib/server/monitored_item.js` and
are opaque to the claims about this file. -/
structure MonitoredItem where
  itemNotifications : List ItemNotification
  deriving Repr, DecidableEq

/-- Events emitted by the subscription (the `emit(...)` calls),
recorded in an explicit log. -/
inductive Event
  | perform_update
  | notification
  | keepalive (futureSequenceNumber : Nat)
  | expired
  | terminated
  | monitoredItemCreated
  deriving Repr, DecidableEq

/-- Errors a JS method can throw: a failed `better-assert` assertion
(asserts are active by default; `NO_ASSERT` is not set) or a
`TypeError` from calling a non-function. -/
inductive JsError
  | assertionFailed
  | typeError
  deriving Repr, DecidableEq

/-- The Publish Engine capability as seen during one subscription
operation: the parked-request count the code reads, and the boolean
that `send_keep_alive_response` would return.
`send_notification_message` only has effects outside the subscription
state. -/
structure PublishEngine where
  pendingPublishRequestCount : Int
  send_keep_alive_response_result : Bool
  deriving Repr, DecidableEq

/-- The mutable state of one `Subscription` object (the fields of the
JS instance that the modelled methods read or write).  `timerId` is
`true` while the interval timer is armed.  `modifyCount` is the only
diagnostics counter a claim mentions; the diagnostics object's other
counters and live getters are omitted.  `events` is the emission log. -/
structure Subscription where
  id : Int
  priority : Int
  publishingInterval : Int
  maxKeepAliveCount : Int
  lifeTimeCount : Int
  maxNotificationsPerPublish : Int
  _life_time_counter : Int
  _keep_alive_counter : Int
  _pending_notifications : List NotificationRec
  _sent_notifications : List NotificationRec
  /-- `SequenceNumberGenerator` state.  Modelled from the spec: the
  generator (`lib/misc/sequence_number_generator.js`) is not under
  `src/`; per the spec `next()` returns and advances, first value 1,
  and `future()` peeks without advancing.  The field holds the value
  `next()` would return. -/
  _sequence_number_generator : Nat
  state : SubscriptionState
  publishIntervalCount : Int
  monitoredItems : List (Nat × MonitoredItem)
  monitoredItemIdCounter : Nat
  publishingEnabled : Bool
  timerId : Bool
  modifyCount : Int
  events : List Event
  deriving Repr, DecidableEq

/-- JS `x || d` on an integer that may also be `undefined`/`null`:
`undefined`, `null` and `0` are all falsy. -/
def jsOr (x : Option Int) (d : Int) : Int :=
  match x with
  | none => d
  | some v => if v = 0 then d else v

def minimumPublishingInterval : Int := 100
def defaultPublishingInterval : Int := 100
def maximumPublishingInterval : Int := 1000 * 60 * 60 * 24 * 30

/-- `_adjust_publishing_interval`. -/
def _adjust_publishing_interval (publishingInterval : Option Int) : Int :=
  let publishingInterval := jsOr publishingInterval defaultPublishingInterval
  let publishingInterval := max publishingInterval minimumPublishingInterval
  let publishingInterval := min publishingInterval maximumPublishingInterval
  publishingInterval

def minimumMaxKeepAliveCount : Int := 2
def maximumMaxKeepAliveCount : Int := 12000

/-- `_adjust_maxKeepAliveCount`. -/
def _adjust_maxKeepAliveCount (maxKeepAliveCount : Option Int) : Int :=
  let maxKeepAliveCount := jsOr maxKeepAliveCount 10
  let maxKeepAliveCount := max maxKeepAliveCount minimumMaxKeepAliveCount
  let maxKeepAliveCount := min maxKeepAliveCount maximumMaxKeepAliveCount
  maxKeepAliveCount

/-- `_adjust_lifeTimeCount`: at least three times `maxKeepAliveCount`. -/
def _adjust_lifeTimeCount (lifeTimeCount : Option Int) (maxKeepAliveCount : Int) : Int :=
  let lifeTimeCount := jsOr lifeTimeCount 1
  max lifeTimeCount (maxKeepAliveCount * 3)

/-- `_adjust_publishinEnable` (sic): `null`/`undefined` default to
`true`. -/
def _adjust_publishinEnable (publishingEnabled : Option Bool) : Bool :=
  match publishingEnabled with
  | none => true
  | some b => b

/-- `_adjust_maxNotificationsPerPublish`: `(x >= 0) ? x : 0`
(`undefined >= 0` is false, hence `none` yields 0). -/
def _adjust_maxNotificationsPerPublish (maxNotificationsPerPublish : Option Int) : Int :=
  match maxNotificationsPerPublish with
  | none => 0
  | some v => if 0 ≤ v then v else 0

/-- Options accepted by the `Subscription` constructor (each field may
be absent).  The source defaults a missing `id` to the string
`<invalid_id>`, modelled here as 0. -/
structure SubOptions where
  id : Option Int := none
  priority : Option Int := none
  publishingInterval : Option Int := none
  maxKeepAliveCount : Option Int := none
  lifeTimeCount : Option Int := none
  maxNotificationsPerPublish : Option Int := none
  publishingEnabled : Option Bool := none
  deriving Repr

/-- Appends one emitted event to the log. -/
def emitEvent (s : Subscription) (e : Event) : Subscription :=
  { s with events := s.events ++ [e] }

/-- `_start_timer`: arms the interval timer (scheduling itself is
external), moves the subscription to NORMAL, and seeds the keep-alive
counter to `maxKeepAliveCount` so a keep-alive goes out at the end of
the first cycle if nothing else does.  The source also registers the
subscription in a process-wide registry (not modelled) and asserts
`timerId === null`, which holds at both call sites. -/
def _start_timer (s : Subscription) : Subscription :=
  { s with state := SubscriptionState.NORMAL,
           _keep_alive_counter := s.maxKeepAliveCount,
           timerId := true }

/-- `_stop_timer`: clears the interval timer if armed (and unregisters
from the process-wide registry, not modelled). -/
def _stop_timer (s : Subscription) : Subscription :=
  if s.timerId then { s with timerId := false } else s

/-- The `Subscription` constructor.  Field initialisation order follows
the source; the trailing `_start_timer` overwrites the CREATING state
and the freshly reset keep-alive counter. -/
def mkSubscription (options : SubOptions) : Subscription :=
  let s : Subscription := {
    id := jsOr options.id 0
    priority := jsOr options.priority 0
    publishingInterval := _adjust_publishing_interval options.publishingInterval
    maxKeepAliveCount := _adjust_maxKeepAliveCount options.maxKeepAliveCount
    lifeTimeCount := _adjust_lifeTimeCount options.lifeTimeCount
        (_adjust_maxKeepAliveCount options.maxKeepAliveCount)
    maxNotificationsPerPublish :=
      _adjust_maxNotificationsPerPublish options.maxNotificationsPerPublish
    _life_time_counter := 0
    _keep_alive_counter := 0
    _pending_notifications := []
    _sent_notifications := []
    _sequence_number_generator := 1
    state := SubscriptionState.CREATING
    publishIntervalCount := 0
    monitoredItems := []
    monitoredItemIdCounter := 0
    publishingEnabled := _adjust_publishinEnable options.publishingEnabled
    timerId := false
    modifyCount := 0
    events := [] }
  _start_timer s

/-- `resetKeepAliveCounter`. -/
def resetKeepAliveCounter (s : Subscription) : Subscription :=
  { s with _keep_alive_counter := 0 }

/-- `increaseKeepAliveCounter`. -/
def increaseKeepAliveCounter (s : Subscription) : Subscription :=
  { s with _keep_alive_counter := s._keep_alive_counter + 1 }

/-- The `keepAliveCounterHasExpired` getter. -/
def keepAliveCounterHasExpired (s : Subscription) : Bool :=
  s._keep_alive_counter ≥ s.maxKeepAliveCount

/-- `resetLifeTimeCounter`. -/
def resetLifeTimeCounter (s : Subscription) : Subscription :=
  { s with _life_time_counter := 0 }

/-- `increaseLifeTimeCounter`. -/
def increaseLifeTimeCounter (s : Subscription) : Subscription :=
  { s with _life_time_counter := s._life_time_counter + 1 }

/-- The `lifeTimeHasExpired` getter (its `assert(lifeTimeCount > 0)`
holds on every constructed state since `lifeTimeCount ≥ 3·2`). -/
def lifeTimeHasExpired (s : Subscription) : Bool :=
  s._life_time_counter ≥ s.lifeTimeCount

/-- `resetLifeTimeAndKeepAliveCounters`. -/
def resetLifeTimeAndKeepAliveCounters (s : Subscription) : Subscription :=
  resetKeepAliveCounter (resetLifeTimeCounter s)

/-- Parameters of `modify` (a `ModifySubscriptionRequest`): the three
`requested*` fields use JS `||` defaulting, while
`maxNotificationsPerPublish` and `priority` are read directly. -/
structure ModifyParams where
  requestedPublishingInterval : Option Int := none
  requestedLifetimeCount : Option Int := none
  requestedMaxKeepAliveCount : Option Int := none
  maxNotificationsPerPublish : Int
  priority : Int
  deriving Repr

/-- `modify`: bumps the diagnostics `modifyCount`, re-clamps the three
timing parameters (0 meaning "no change" for the keep-alive and
life-time counts), assigns `maxNotificationsPerPublish` and `priority`
verbatim, resets both counters, and restarts the ticker (which puts the
state at NORMAL and re-seeds the keep-alive counter). -/
def modify (s : Subscription) (param : ModifyParams) : Subscription :=
  let s := { s with modifyCount := s.modifyCount + 1 }
  let requestedPublishingInterval := jsOr param.requestedPublishingInterval 0
  let requestedMaxKeepAliveCount := jsOr param.requestedMaxKeepAliveCount s.maxKeepAliveCount
  let requestedLifetimeCount := jsOr param.requestedLifetimeCount s.lifeTimeCount
  let s := { s with
    publishingInterval := _adjust_publishing_interval (some requestedPublishingInterval),
    maxKeepAliveCount := _adjust_maxKeepAliveCount (some requestedMaxKeepAliveCount) }
  let s := { s with
    lifeTimeCount := _adjust_lifeTimeCount (some requestedLifetimeCount) s.maxKeepAliveCount,
    maxNotificationsPerPublish := param.maxNotificationsPerPublish,
    priority := param.priority }
  let s := resetLifeTimeAndKeepAliveCounters s
  _start_timer (_stop_timer s)

/-- `addNotificationMessage`: stamps the payload with the next sequence
number (`_get_next_sequence_number`, which advances the generator) and
pushes the record on the pending queue.  Its asserts (array of 1 or 2
valid notification payloads) hold at every modelled call site. -/
def addNotificationMessage (s : Subscription) (notificationData : List NotificationData) :
    Subscription :=
  let seq := s._sequence_number_generator
  { s with _sequence_number_generator := seq + 1,
           _pending_notifications := s._pending_notifications ++
             [{ notification := { sequenceNumber := seq, notificationData := notificationData },
                start_tick := s.publishIntervalCount,
                sequenceNumber := seq }] }

/-- `popNotificationToSend`: shifts the head of the pending queue onto
the tail of the sent queue and resets both counters.  The source
asserts `hasPendingNotifications`; callers in this model check it
first, so the empty case (which would shift `undefined`) returns the
state unchanged with `none`. -/
def popNotificationToSend (s : Subscription) : Subscription × Option NotificationRec :=
  match s._pending_notifications with
  | [] => (s, none)
  | r :: rest =>
      (resetLifeTimeAndKeepAliveCounters
        { s with _pending_notifications := rest,
                 _sent_notifications := s._sent_notifications ++ [r] }, some r)

def maxNotificationMessagesInQueue : Int := 100

/-- JS relational comparison `n <= arr` where `arr` is an Array of
plain objects: `ToPrimitive(arr)` is `arr.join(",")`, so an empty array
converts to the number 0 and a non-empty array of `NotificationRec`
objects converts to NaN; any comparison against NaN is false. -/
def jsLeNumArray (n : Int) (arr : List NotificationRec) : Bool :=
  match arr with
  | [] => n ≤ 0
  | _ :: _ => false

/-- `discardOldSentNotifications`.  The source intends to cap the
retransmission queue at `maxNotificationMessagesInQueue`, but its guard
is `maxNotificationMessagesInQueue <= self._sent_notifications` — a
number compared against the array object — which is false for every
queue (empty or not), and its body calls the array as a function
(`self._sent_notifications(0, ...)`), which would throw a TypeError if
the guard were ever true.  Net effect: the queue is never pruned. -/
def discardOldSentNotifications (sent : List NotificationRec) :
    Except JsError (List NotificationRec) :=
  if jsLeNumArray maxNotificationMessagesInQueue sent then
    Except.error JsError.typeError
  else
    Except.ok sent

/-- `getSequenceNumbers`: maps a queue to the sequence numbers stored
inside the `notification` messages. -/
def getSequenceNumbers (arr : List NotificationRec) : List Nat :=
  arr.map (fun e => e.notification.sequenceNumber)

/-- `getAvailableSequenceNumbers`: retransmission-queue sequence
numbers followed by pending-queue sequence numbers.  A pure observer of
the state. -/
def getAvailableSequenceNumbers (s : Subscription) : List Nat :=
  getSequenceNumbers s._sent_notifications ++ getSequenceNumbers s._pending_notifications

/-- The `_.find` loop of `acknowledgeNotification`: the callback never
returns a truthy value (it only assigns `foundIndex`), so underscore
walks the whole queue and `foundIndex` ends at the *last* index whose
record-level `sequenceNumber` matches, or stays -1. -/
def ackScan (sequenceNumber : Nat) (sent : List NotificationRec) : Int × Int :=
  sent.foldl
    (fun p e => (if e.sequenceNumber = sequenceNumber then p.2 else p.1, p.2 + 1))
    (-1, 0)

/-- `acknowledgeNotification`: locates the record with the given
sequence number; if absent returns `BadSequenceNumberUnknown`
untouched, otherwise splices it out of `_sent_notifications` and
returns `Good`.  (No other field — in particular neither counter — is
written.) -/
def acknowledgeNotification (s : Subscription) (sequenceNumber : Nat) :
    Subscription × StatusCodes :=
  let foundIndex := (ackScan sequenceNumber s._sent_notifications).1
  if foundIndex = -1 then
    (s, StatusCodes.BadSequenceNumberUnknown)
  else
    ({ s with _sent_notifications := s._sent_notifications.eraseIdx foundIndex.toNat },
     StatusCodes.Good)

/-- `removeMonitoredItem`: unknown id is `BadMonitoredItemIdInvalid`;
otherwise the item is terminated (opaque to the model) and deleted from
the map. -/
def removeMonitoredItem (s : Subscription) (monitoredItemId : Nat) :
    Subscription × StatusCodes :=
  if s.monitoredItems.any (fun p => p.1 = monitoredItemId) then
    ({ s with monitoredItems := s.monitoredItems.filter (fun p => p.1 != monitoredItemId) },
     StatusCodes.Good)
  else
    (s, StatusCodes.BadMonitoredItemIdInvalid)

/-- `terminate`: a no-op when already CLOSED; otherwise stops the
timer, removes (terminating) every monitored item — iterating over a
snapshot of the keys, as the source does — enqueues the final
`StatusChangeNotification(BadTimeout)` message, moves to CLOSED and
emits `terminated`.  The source's asserts (`status === Good` per
removal, `monitoredItemCount === 0` at the end) hold because JS object
keys are unique. -/
def terminate (s : Subscription) : Subscription :=
  if s.state = SubscriptionState.CLOSED then s
  else
    let s := _stop_timer s
    let keys := s.monitoredItems.map Prod.fst
    let s := keys.foldl (fun st key => (removeMonitoredItem st key).1) s
    let s := addNotificationMessage s
      [NotificationData.statusChangeNotification StatusCodes.BadTimeout]
    let s := { s with state := SubscriptionState.CLOSED }
    emitEvent s Event.terminated

/-- The facts about an address-space node that the validation code
branches on: whether it is a `UAVariable`, and the result of
`dataType.isSupertypeOf(findDataType("Number"))` on its data type. -/
structure Node where
  isVariable : Bool
  dataType_isSupertypeOf_Number : Bool
  deriving Repr, DecidableEq

/-- An address space, reduced to `findNode`. -/
def AddressSpace : Type := Nat → Option Node

/-- `itemToMonitor` of a `MonitoredItemCreateRequest`.  The external
predicate results the code branches on (`indexRange.isValid()`,
truthiness of `dataEncoding.name`, `is_valid_dataEncoding`) are carried
as oracle booleans. -/
structure ItemToMonitor where
  nodeId : Nat
  attributeId : AttributeIds
  indexRangeIsValid : Bool
  dataEncodingNameIsSet : Bool
  dataEncodingIsValid : Bool
  deriving Repr, DecidableEq

/-- `requestedParameters` of a `MonitoredItemCreateRequest` (only the
filter is consulted by the validation path; sampling-interval
negotiation happens in `monitored_item.js`). -/
structure RequestedParameters where
  filter : Option FilterVariant
  deriving Repr, DecidableEq

structure MonitoredItemCreateRequest where
  itemToMonitor : ItemToMonitor
  requestedParameters : RequestedParameters
  deriving Repr, DecidableEq

/-- `MonitoredItemCreateResult`, reduced to the fields the claims
mention (`handle_error` leaves `monitoredItemId` at its default 0). -/
structure MonitoredItemCreateResult where
  statusCode : StatusCodes
  monitoredItemId : Nat
  deriving Repr, DecidableEq

/-- `__validateDataChangeFilter`.  Its `assert(attributeId === Value)`
holds at its only call site (guarded by `__validateFilter`).  The
percent-deadband window check mirrors
`deadbandValue <= 0 || deadbandValue >= 100` with IEEE comparison
semantics: both sides are false at NaN, so a NaN deadband passes. -/
def __validateDataChangeFilter (filter : DataChangeFilter) (node : Node) : StatusCodes :=
  if ¬ node.isVariable then
    StatusCodes.BadNodeIdInvalid
  else if ¬ node.dataType_isSupertypeOf_Number then
    StatusCodes.BadFilterNotAllowed
  else if filter.deadbandType = DeadbandType.Percent then
    if jsLe filter.deadbandValue 0 || jsGe filter.deadbandValue 100 then
      StatusCodes.BadDeadbandFilterInvalid
    else
      StatusCodes.Good
  else
    StatusCodes.Good

/-- `filter instanceof DataChangeFilter` on a possibly-null filter. -/
def isDataChangeFilter : Option FilterVariant → Bool
  | some (FilterVariant.dataChangeFilter _) => true
  | _ => false

/-- `__validateFilter`: the three attribute/variant guards, then
deadband validation for a `DataChangeFilter`. -/
def __validateFilter (filter : Option FilterVariant) (itemToMonitor : ItemToMonitor)
    (node : Node) : StatusCodes :=
  if filter = some FilterVariant.eventFilter ∧
      itemToMonitor.attributeId ≠ AttributeIds.EventNotifier then
    StatusCodes.BadFilterNotAllowed
  else if isDataChangeFilter filter ∧
      itemToMonitor.attributeId ≠ AttributeIds.Value then
    StatusCodes.BadFilterNotAllowed
  else if filter.isSome ∧ itemToMonitor.attributeId ≠ AttributeIds.EventNotifier ∧
      itemToMonitor.attributeId ≠ AttributeIds.Value then
    StatusCodes.BadFilterNotAllowed
  else
    match filter with
    | some (FilterVariant.dataChangeFilter f) => __validateDataChangeFilter f node
    | _ => StatusCodes.Good

/-- `_createMonitoredItemStep2`: allocates the next monitored-item id,
registers a fresh item under it, and returns the `Good` result.
(Sampling-interval adjustment and the revised queue size concern the
item object, outside these claims.) -/
def _createMonitoredItemStep2 (s : Subscription) :
    Subscription × MonitoredItemCreateResult :=
  let monitoredItemId := s.monitoredItemIdCounter + 1
  ({ s with monitoredItemIdCounter := monitoredItemId,
            monitoredItems := s.monitoredItems ++ [(monitoredItemId, { itemNotifications := [] })] },
   { statusCode := StatusCodes.Good, monitoredItemId := monitoredItemId })

/-- `createMonitoredItem`: the validation chain (first failure wins,
registry untouched), then registration via `_createMonitoredItemStep2`,
the `monitoredItem` hook, and `_createMonitoredItemStep3` (monitoring
mode, opaque to the model). -/
def createMonitoredItem (s : Subscription) (addressSpace : AddressSpace)
    (monitoredItemCreateRequest : MonitoredItemCreateRequest) :
    Subscription × MonitoredItemCreateResult :=
  let itemToMonitor := monitoredItemCreateRequest.itemToMonitor
  match addressSpace itemToMonitor.nodeId with
  | none => (s, { statusCode := StatusCodes.BadNodeIdUnknown, monitoredItemId := 0 })
  | some node =>
    if itemToMonitor.attributeId = AttributeIds.Value ∧ ¬ node.isVariable then
      (s, { statusCode := StatusCodes.BadAttributeIdInvalid, monitoredItemId := 0 })
    else if itemToMonitor.attributeId = AttributeIds.INVALID then
      (s, { statusCode := StatusCodes.BadAttributeIdInvalid, monitoredItemId := 0 })
    else if ¬ itemToMonitor.indexRangeIsValid then
      (s, { statusCode := StatusCodes.BadIndexRangeInvalid, monitoredItemId := 0 })
    else if itemToMonitor.dataEncodingNameIsSet ∧
        itemToMonitor.attributeId ≠ AttributeIds.Value then
      (s, { statusCode := StatusCodes.BadDataEncodingInvalid, monitoredItemId := 0 })
    else if ¬ itemToMonitor.dataEncodingIsValid then
      (s, { statusCode := StatusCodes.BadDataEncodingUnsupported, monitoredItemId := 0 })
    else
      let statusCodeFilter :=
        __validateFilter monitoredItemCreateRequest.requestedParameters.filter
          itemToMonitor node
      if statusCodeFilter ≠ StatusCodes.Good then
        (s, { statusCode := statusCodeFilter, monitoredItemId := 0 })
      else
        let (s, result) := _createMonitoredItemStep2 s
        (emitEvent s Event.monitoredItemCreated, result)

/-- `extract_notifications_chunk`: takes
`maxNotificationsPerPublish === 0 ? length : min(length, maxNotificationsPerPublish)`
elements off the front.  (For a negative `maxNotificationsPerPublish`
— reachable only through `modify`, which does not clamp it — the JS
`while (n)` loop never terminates; the model takes 0 elements.) -/
def extract_notifications_chunk (maxNotificationsPerPublish : Int)
    (monitoredItems : List ItemNotification) :
    List ItemNotification × List ItemNotification :=
  let n : Nat :=
    if maxNotificationsPerPublish = 0 then monitoredItems.length
    else (min (monitoredItems.length : Int) maxNotificationsPerPublish).toNat
  (monitoredItems.take n, monitoredItems.drop n)

/-- One iteration body of `collectNotificationData`'s while loop:
partitions a chunk into its `MonitoredItemNotification`s and
`EventFieldList`s and forms the 1-or-2-entry `notifications` array. -/
def chunk_notifications (chunk : List ItemNotification) : List NotificationData :=
  let dataChangedNotificationData := chunk.filterMap (fun n =>
    match n with
    | ItemNotification.monitoredItemNotification p => some p
    | _ => none)
  let eventNotificationListData := chunk.filterMap (fun n =>
    match n with
    | ItemNotification.eventFieldList p => some p
    | _ => none)
  (if dataChangedNotificationData.length ≠ 0 then
    [NotificationData.dataChangeNotification dataChangedNotificationData]
   else []) ++
  (if eventNotificationListData.length ≠ 0 then
    [NotificationData.eventNotificationList eventNotificationListData]
   else [])

/-- The `while (all_notifications.length > 0)` loop of
`collectNotificationData`, with fuel equal to the initial length (the
chunk removes at least one element per iteration whenever the JS loop
makes progress). -/
def collect_chunks (maxNotificationsPerPublish : Int) :
    Nat → List ItemNotification → List (List NotificationData)
  | _, [] => []
  | 0, _ => []
  | fuel + 1, l =>
      let (chunk, rest) := extract_notifications_chunk maxNotificationsPerPublish l
      chunk_notifications chunk :: collect_chunks maxNotificationsPerPublish fuel rest

/-- `collectNotificationData`: drains every monitored item's pending
notifications in registration order
(`extractMonitoredItemNotifications` empties each item) and slices the
concatenation into `notificationData` arrays. -/
def collectNotificationData (s : Subscription) :
    Subscription × List (List NotificationData) :=
  let all_notifications := (s.monitoredItems.map (fun p => p.2.itemNotifications)).flatten
  let s := { s with monitoredItems :=
    s.monitoredItems.map (fun p => (p.1, { itemNotifications := [] })) }
  (s, collect_chunks s.maxNotificationsPerPublish all_notifications.length all_notifications)

/-- `prepareNotification`: does nothing unless the Publish Engine has
at least one parked publish request (so no sequence number is burned);
otherwise assembles and enqueues every collected `notificationData`. -/
def prepareNotification (publishEngine : PublishEngine) (s : Subscription) : Subscription :=
  if publishEngine.pendingPublishRequestCount = 0 then s
  else
    let (s, notificationData) := collectNotificationData s
    notificationData.foldl (fun st nd => addNotificationMessage st nd) s

/-- The `pendingNotificationsCount` / `hasPendingNotifications`
getters. -/
def hasPendingNotifications (s : Subscription) : Bool :=
  s._pending_notifications.length > 0

/-- `_attempt_to_publish_notification`: asserts that a pending message
exists, emits `notification`, and either hands the head message to the
Publish Engine (`send_notification_message` is an engine-side effect)
— returning LATE/KEEPALIVE states to NORMAL — or, with no parked
request and not CLOSED, falls to LATE. -/
def _attempt_to_publish_notification (publishEngine : PublishEngine) (s : Subscription) :
    Except JsError Subscription :=
  if ¬ hasPendingNotifications s then Except.error JsError.assertionFailed
  else
    let s := emitEvent s Event.notification
    if publishEngine.pendingPublishRequestCount > 0 then
      let (s, _popped) := popNotificationToSend s
      let s :=
        if s.state = SubscriptionState.LATE ∨ s.state = SubscriptionState.KEEPALIVE then
          { s with state := SubscriptionState.NORMAL }
        else s
      Except.ok s
    else
      if s.state = SubscriptionState.CLOSED then Except.ok s
      else Except.ok { s with state := SubscriptionState.LATE }

/-- `_sendKeepAliveResponse`: peeks the future sequence number and asks
the engine to emit a keep-alive; on success emits the `keepalive` event
and reports `true`. -/
def _sendKeepAliveResponse (publishEngine : PublishEngine) (s : Subscription) :
    Bool × Subscription :=
  let future_sequence_number := s._sequence_number_generator
  if publishEngine.send_keep_alive_response_result then
    (true, emitEvent s (Event.keepalive future_sequence_number))
  else
    (false, s)

/-- `process_subscription`: prepares notifications, then either
attempts to publish one (pending data and publishing enabled — the
`setImmediate` re-tick is scheduling and not modelled), or walks the
keep-alive path: increment the counter and, once it expires, send a
keep-alive; if the engine refuses, `assert(false, " ?????")` throws
before the fall-back `state = LATE` line can run. -/
def process_subscription (publishEngine : PublishEngine) (s : Subscription) :
    Except JsError Subscription :=
  let s := prepareNotification publishEngine s
  if hasPendingNotifications s ∧ s.publishingEnabled then
    _attempt_to_publish_notification publishEngine s
  else
    let s := increaseKeepAliveCounter s
    if keepAliveCounterHasExpired s then
      match _sendKeepAliveResponse publishEngine s with
      | (true, s) => Except.ok (resetLifeTimeAndKeepAliveCounters s)
      | (false, _) => Except.error JsError.assertionFailed
    else
      Except.ok s

/-- `_tick`: the periodic callback.  Order as in the source: the
engine's `_on_tick` hook (external), bump `publishIntervalCount`, emit
`perform_update`, assemble notifications, bump the life-time counter,
prune the sent queue, then either expire (emit `expired` and
terminate), go LATE when no publish request is parked, or run
`process_subscription`. -/
def _tick (publishEngine : PublishEngine) (s : Subscription) : Except JsError Subscription :=
  let s := { s with publishIntervalCount := s.publishIntervalCount + 1 }
  let s := emitEvent s Event.perform_update
  let s := prepareNotification publishEngine s
  let s := increaseLifeTimeCounter s
  match discardOldSentNotifications s._sent_notifications with
  | Except.error e => Except.error e
  | Except.ok sent =>
    let s := { s with _sent_notifications := sent }
    if lifeTimeHasExpired s then
      let s := emitEvent s Event.expired
      Except.ok (terminate s)
    else if publishEngine.pendingPublishRequestCount = 0 then
      Except.ok { s with state := SubscriptionState.LATE }
    else
      process_subscription publishEngine s

/-! ## Helper lemmas and shared concrete inputs -/

/-- `discardOldSentNotifications` never discards anything and never
reaches its throwing body: its guard coerces the array itself to a
number, which yields 0 (empty) or NaN (non-empty), and
`100 <= 0` / `100 <= NaN` are both false. -/
theorem discard_ok (sent : List NotificationRec) :
    discardOldSentNotifications sent = Except.ok sent := by
  cases sent <;>
    simp [discardOldSentNotifications, jsLeNumArray, maxNotificationMessagesInQueue]

/-- Options of spec scenario 1: `publishingInterval=50,
maxKeepAliveCount=1, lifeTimeCount=2`. -/
def opts50 : SubOptions :=
  { publishingInterval := some 50, maxKeepAliveCount := some 1, lifeTimeCount := some 2 }

/-- A retransmission-queue record with a given sequence number. -/
def sampleRec (n : Nat) : NotificationRec :=
  { notification :=
      { sequenceNumber := n,
        notificationData := [NotificationData.statusChangeNotification StatusCodes.Good] },
    start_tick := 0, sequenceNumber := n }

/-- 101 records: a retransmission queue already past the documented
bound (reachable by publishing 101 notifications with no acks). -/
def sent101 : List NotificationRec := (List.range 101).map sampleRec

/-- A publish engine with no parked publish request, whose
`send_keep_alive_response` therefore reports `false`. -/
def engineNoRequest : PublishEngine :=
  { pendingPublishRequestCount := 0, send_keep_alive_response_result := false }

/-- A freshly constructed scenario-1 subscription whose keep-alive
counter is one below `maxKeepAliveCount = 2`. -/
def subAtKeepAlive : Subscription := { mkSubscription opts50 with _keep_alive_counter := 1 }

/-! ## Claims -/

/-- C1: the spec claims `_sent_notifications` is capped at 100 entries
with the oldest dropped first.  The code never drops anything: on a
101-entry queue `discardOldSentNotifications` returns the queue intact,
above the documented bound (and its eviction body, had the broken guard
ever been true, calls the array as a function).  The pruning comment in
the source and spec §9 make the 100-bound the documented intent, so
this is a code bug, not a spec error. -/
theorem c1_discardOldSentNotifications_never_prunes :
    discardOldSentNotifications sent101 = Except.ok sent101 ∧
    sent101.length = 101 ∧ ¬ sent101.length ≤ 100 := by
  refine ⟨discard_ok sent101, ?_, ?_⟩ <;> simp [sent101]

/-- C3: the spec claims that when the engine refuses a keep-alive the
subscription quietly goes LATE.  In the code the refusal branch of
`process_subscription` executes `assert(false, " ?????")`, which throws
before the `state = LATE` assignment on the very next line can run;
that dead assignment (and the working LATE fall-through on the sibling
notification path) shows the spec is the intent and the assert a slip. -/
theorem c3_keepalive_refusal_hits_assert :
    process_subscription engineNoRequest subAtKeepAlive =
      Except.error JsError.assertionFailed := by
  rfl

/-- C5: construction clamps `publishingInterval` to
`[100, 2592000000]` (exactly the requested value clamped), keeps the
effective `maxKeepAliveCount` inside `[2, 12000]`, and raises
`lifeTimeCount` to at least three times the effective
`maxKeepAliveCount`. -/
theorem c5_constructor_clamps (options : SubOptions) (pi : Int)
    (hpi : options.publishingInterval = some pi) :
    (mkSubscription options).publishingInterval =
      min (max pi minimumPublishingInterval) maximumPublishingInterval ∧
    minimumMaxKeepAliveCount ≤ (mkSubscription options).maxKeepAliveCount ∧
    (mkSubscription options).maxKeepAliveCount ≤ maximumMaxKeepAliveCount ∧
    3 * (mkSubscription options).maxKeepAliveCount ≤ (mkSubscription options).lifeTimeCount := by
  rcases h1 : options.maxKeepAliveCount with _ | mk <;>
    rcases h2 : options.lifeTimeCount with _ | lt <;>
      simp only [mkSubscription, _start_timer, _adjust_publishing_interval,
        _adjust_maxKeepAliveCount, _adjust_lifeTimeCount, jsOr, hpi, h1, h2,
        minimumPublishingInterval, defaultPublishingInterval, maximumPublishingInterval,
        minimumMaxKeepAliveCount, maximumMaxKeepAliveCount] <;>
      refine ⟨?_, ?_, ?_, ?_⟩ <;> first | (split_ifs <;> omega) | omega

/-- C5 witness: spec scenario 1 — requesting `50, 1, 2` yields the
effective values `100, 2, 6`. -/
theorem c5_witness :
    (mkSubscription opts50).publishingInterval = 100 ∧
    (mkSubscription opts50).maxKeepAliveCount = 2 ∧
    (mkSubscription opts50).lifeTimeCount = 6 := by
  have h := c5_constructor_clamps opts50 50 rfl
  exact ⟨by simpa using h.1, by decide, by decide⟩

/-- C7 counterexample: a Percent filter with a NaN deadband on a
numeric Variable is accepted (`Good`) — both `NaN <= 0` and
`NaN >= 100` are false — although NaN does not lie strictly between 0
and 100, so "accepted only when the value lies strictly between 0 and
100, otherwise BadDeadbandFilterInvalid" is false of the code. -/
theorem c7_counterexample :
    __validateDataChangeFilter
      { deadbandType := DeadbandType.Percent, deadbandValue := JsDouble.nan }
      { isVariable := true, dataType_isSupertypeOf_Number := true } = StatusCodes.Good ∧
    ¬ ∃ q : Rat, JsDouble.nan = JsDouble.val q ∧ 0 < q ∧ q < 100 := by
  refine ⟨rfl, ?_⟩
  rintro ⟨q, hq, -, -⟩
  simp at hq

/-- C7 (amended): `__validateDataChangeFilter` on a Value-attribute
item: a non-Variable node gives `BadNodeIdInvalid`; a Variable whose
data type fails the Number-subtype check gives `BadFilterNotAllowed`;
with a Percent deadband the filter is accepted exactly when the
deadband value is NaN (IEEE comparisons let it through) or lies
strictly between 0 and 100, and otherwise gives
`BadDeadbandFilterInvalid`. -/
theorem c7_validateDataChangeFilter_amended (filter : DataChangeFilter) (node : Node) :
    (node.isVariable = false →
      __validateDataChangeFilter filter node = StatusCodes.BadNodeIdInvalid) ∧
    (node.isVariable = true → node.dataType_isSupertypeOf_Number = false →
      __validateDataChangeFilter filter node = StatusCodes.BadFilterNotAllowed) ∧
    (node.isVariable = true → node.dataType_isSupertypeOf_Number = true →
      filter.deadbandType = DeadbandType.Percent →
      ((__validateDataChangeFilter filter node = StatusCodes.Good ↔
          filter.deadbandValue = JsDouble.nan ∨
            ∃ q, filter.deadbandValue = JsDouble.val q ∧ 0 < q ∧ q < 100) ∧
        (¬ (filter.deadbandValue = JsDouble.nan ∨
            ∃ q, filter.deadbandValue = JsDouble.val q ∧ 0 < q ∧ q < 100) →
          __validateDataChangeFilter filter node =
            StatusCodes.BadDeadbandFilterInvalid))) := by
  refine ⟨fun h1 => by simp [__validateDataChangeFilter, h1],
          fun h1 h2 => by simp [__validateDataChangeFilter, h1, h2],
          fun h1 h2 h3 => ?_⟩
  have e : __validateDataChangeFilter filter node =
      if jsLe filter.deadbandValue 0 || jsGe filter.deadbandValue 100 then
        StatusCodes.BadDeadbandFilterInvalid
      else StatusCodes.Good := by
    simp [__validateDataChangeFilter, h1, h2, h3]
  rcases hd : filter.deadbandValue with _ | q
  · rw [e, hd]
    simp [jsLe, jsGe]
  · rw [e, hd]
    simp only [jsLe, jsGe]
    by_cases hv : q ≤ 0 ∨ 100 ≤ q
    · rw [if_pos (by simpa using hv)]
      constructor
      · constructor
        · intro hG; simp at hG
        · rintro (hnan | ⟨q', hq', h0, h100⟩)
          · simp at hnan
          · injection hq' with hqq
            subst hqq
            rcases hv with hv | hv
            · exact absurd h0 (not_lt.mpr hv)
            · exact absurd h100 (not_lt.mpr hv)
      · intro _; rfl
    · rw [if_neg (by simpa using hv)]
      push_neg at hv
      constructor
      · exact ⟨fun _ => Or.inr ⟨q, rfl, hv.1, hv.2⟩, fun _ => rfl⟩
      · intro hn; exact absurd (Or.inr ⟨q, rfl, hv.1, hv.2⟩) hn

/-- C7 witness: a 50-percent deadband on a numeric Variable is
accepted. -/
theorem c7_witness :
    __validateDataChangeFilter
      { deadbandType := DeadbandType.Percent, deadbandValue := JsDouble.val 50 }
      { isVariable := true, dataType_isSupertypeOf_Number := true } = StatusCodes.Good := by
  exact ((c7_validateDataChangeFilter_amended
    { deadbandType := DeadbandType.Percent, deadbandValue := JsDouble.val 50 }
    { isVariable := true, dataType_isSupertypeOf_Number := true }).2.2
      rfl rfl rfl).1.mpr (Or.inr ⟨50, rfl, by norm_num, by norm_num⟩)

/-- C8: `getAvailableSequenceNumbers` returns exactly the sequence
numbers of the retransmission-queue records, in queue order, followed
by those of the pending-queue records, in queue order (the getter reads
the copy inside each record's `notification`; the hypothesis is the
constructor invariant of `addNotificationMessage`, which writes the
same number to both places).  The function is a pure observer: it
returns only the list and no updated state. -/
theorem c8_availableSequenceNumbers (s : Subscription)
    (h : ∀ r ∈ s._sent_notifications ++ s._pending_notifications,
      r.notification.sequenceNumber = r.sequenceNumber) :
    getAvailableSequenceNumbers s =
      s._sent_notifications.map (fun r => r.sequenceNumber) ++
        s._pending_notifications.map (fun r => r.sequenceNumber) := by
  unfold getAvailableSequenceNumbers getSequenceNumbers
  rw [List.map_congr_left fun r hr => h r (List.mem_append_left _ hr),
      List.map_congr_left fun r hr => h r (List.mem_append_right _ hr)]

/-- C8 witness: a state with one sent and one pending record. -/
theorem c8_witness :
    getAvailableSequenceNumbers
      { mkSubscription opts50 with
        _sent_notifications := [sampleRec 1], _pending_notifications := [sampleRec 2] } =
      [1, 2] := by
  have h := c8_availableSequenceNumbers
    { mkSubscription opts50 with
      _sent_notifications := [sampleRec 1], _pending_notifications := [sampleRec 2] }
    (by intro r hr; fin_cases hr <;> rfl)
  simpa [sampleRec] using h

/-- The running index of the `acknowledgeNotification` scan advances by
one per record, whatever the accumulator. -/
theorem ackScan_go_len (seq : Nat) :
    ∀ (l : List NotificationRec) (i n : Int),
      (l.foldl (fun p e => (if e.sequenceNumber = seq then p.2 else p.1, p.2 + 1)) (i, n)).2 =
        n + l.length := by
  intro l
  induction l with
  | nil => intro i n; simp
  | cons r rest ih =>
      intro i n
      simp only [List.foldl_cons, ih, List.length_cons]
      push_cast
      ring

/-- If no record of `l` matches, the scan leaves the found index at its
initial value. -/
theorem ackScan_go_none (seq : Nat) :
    ∀ (l : List NotificationRec) (i n : Int), (∀ r ∈ l, r.sequenceNumber ≠ seq) →
      (l.foldl (fun p e => (if e.sequenceNumber = seq then p.2 else p.1, p.2 + 1)) (i, n)).1 =
        i := by
  intro l
  induction l with
  | nil => intro i n _; simp
  | cons r rest ih =>
      intro i n h
      have hr : ¬ r.sequenceNumber = seq := h r (List.mem_cons_self r rest)
      simp only [List.foldl_cons, if_neg hr]
      exact ih i (n + 1) fun x hx => h x (List.mem_cons_of_mem r hx)

/-- When the single matching record sits between `a` and a matchless
suffix `b`, the found index is `a.length`. -/
theorem ackScan_split (seq : Nat) (a b : List NotificationRec) (r : NotificationRec)
    (hr : r.sequenceNumber = seq) (hb : ∀ x ∈ b, x.sequenceNumber ≠ seq) :
    (ackScan seq (a ++ r :: b)).1 = a.length := by
  unfold ackScan
  rw [List.foldl_append]
  have hp2 := ackScan_go_len seq a (-1) 0
  rcases hp : a.foldl
      (fun p e => (if e.sequenceNumber = seq then p.2 else p.1, p.2 + 1)) (-1, 0) with ⟨i, n⟩
  rw [hp] at hp2
  simp only [Prod.snd] at hp2
  rw [hp]
  simp only [List.foldl_cons, if_pos hr, Prod.snd, Prod.fst]
  rw [ackScan_go_none seq b n (n + 1) hb]
  omega

/-- Removing the element at index `a.length` of `a ++ r :: b` removes
exactly `r`. -/
theorem eraseIdx_append_cons (a b : List NotificationRec) (r : NotificationRec) :
    (a ++ r :: b).eraseIdx a.length = a ++ b := by
  induction a with
  | nil => simp
  | cons x xs ih => simpa using ih

/-- C2 counterexample input: two sent records and non-zero counters. -/
def subWithSent : Subscription :=
  { mkSubscription opts50 with
    _sent_notifications := [sampleRec 1, sampleRec 7],
    _life_time_counter := 5, _keep_alive_counter := 1 }

/-- C2 counterexample: acknowledging sequence number 7 returns `Good`
and removes that record, but `acknowledgeNotification` writes neither
counter — the life-time counter stays 5 and the keep-alive counter 1 —
so "resets both ... to 0" is false at this input. -/
theorem c2_counterexample :
    (acknowledgeNotification subWithSent 7).2 = StatusCodes.Good ∧
    (acknowledgeNotification subWithSent 7).1._sent_notifications = [sampleRec 1] ∧
    (acknowledgeNotification subWithSent 7).1._life_time_counter = 5 ∧
    (acknowledgeNotification subWithSent 7).1._keep_alive_counter = 1 ∧
    ¬ ((acknowledgeNotification subWithSent 7).1._life_time_counter = 0 ∧
        (acknowledgeNotification subWithSent 7).1._keep_alive_counter = 0) := by
  refine ⟨rfl, rfl, rfl, rfl, ?_⟩
  intro h
  have h5 : (acknowledgeNotification subWithSent 7).1._life_time_counter = 5 := rfl
  rw [h.1] at h5
  exact absurd h5 (by norm_num)

/-- C2 (amended): `acknowledgeNotification seq` with no matching record
returns `BadSequenceNumberUnknown` and leaves the subscription
untouched; with a matching record (unique in the suffix, as sequence
numbers are) it removes exactly that record and returns `Good`, leaving
every other field — in particular both the life-time and keep-alive
counters — unchanged rather than resetting them. -/
theorem c2_acknowledgeNotification_amended (s : Subscription) (seq : Nat) :
    ((∀ r ∈ s._sent_notifications, r.sequenceNumber ≠ seq) →
      acknowledgeNotification s seq = (s, StatusCodes.BadSequenceNumberUnknown)) ∧
    (∀ a r b, s._sent_notifications = a ++ r :: b → r.sequenceNumber = seq →
      (∀ x ∈ b, x.sequenceNumber ≠ seq) →
      acknowledgeNotification s seq =
        ({ s with _sent_notifications := a ++ b }, StatusCodes.Good)) := by
  constructor
  · intro h
    unfold acknowledgeNotification
    rw [if_pos]
    exact ackScan_go_none seq s._sent_notifications (-1) 0 h
  · intro a r b hsent hr hb
    unfold acknowledgeNotification
    rw [hsent, ackScan_split seq a b r hr hb, if_neg (by omega)]
    congr 1
    rw [show ((a.length : Int)).toNat = a.length from Int.toNat_natCast a.length,
      eraseIdx_append_cons]

/-- C2 witness: the amended behaviour at `subWithSent` for a known
(7) and an unknown (3) sequence number. -/
theorem c2_witness :
    acknowledgeNotification subWithSent 7 =
      ({ subWithSent with _sent_notifications := [sampleRec 1] }, StatusCodes.Good) ∧
    acknowledgeNotification subWithSent 3 =
      (subWithSent, StatusCodes.BadSequenceNumberUnknown) := by
  constructor
  · have h := (c2_acknowledgeNotification_amended subWithSent 7).2
      [sampleRec 1] (sampleRec 7) [] rfl rfl (by simp)
    simpa using h
  · exact (c2_acknowledgeNotification_amended subWithSent 3).1
      (by intro x hx; fin_cases hx <;> simp [sampleRec])

/-- Restarting the ticker right after stopping it returns to NORMAL,
re-seeds the keep-alive counter with `maxKeepAliveCount`, and leaves
the timer armed, whatever the previous timer state. -/
theorem start_stop_timer (s : Subscription) :
    _start_timer (_stop_timer s) =
      { s with state := SubscriptionState.NORMAL,
               _keep_alive_counter := s.maxKeepAliveCount,
               timerId := true } := by
  unfold _stop_timer _start_timer
  split <;> rfl

/-- C4 counterexample input: a modification request carrying a negative
`maxNotificationsPerPublish`. -/
def paramsNeg : ModifyParams := { maxNotificationsPerPublish := -5, priority := 0 }

/-- C4 counterexample: after `modify` the new
`maxNotificationsPerPublish` is the raw -5 — `modify` assigns it (and
`priority`) without the constructor's clamping — and the keep-alive
counter ends at `maxKeepAliveCount` (= 2 here), not 0, because the
ticker restart re-seeds it after the reset. -/
theorem c4_counterexample :
    (modify (mkSubscription opts50) paramsNeg).maxNotificationsPerPublish = -5 ∧
    ¬ 0 ≤ (modify (mkSubscription opts50) paramsNeg).maxNotificationsPerPublish ∧
    (modify (mkSubscription opts50) paramsNeg)._keep_alive_counter = 2 ∧
    ¬ (modify (mkSubscription opts50) paramsNeg)._keep_alive_counter = 0 := by
  refine ⟨rfl, ?_, rfl, ?_⟩
  · intro h
    have h5 : (modify (mkSubscription opts50) paramsNeg).maxNotificationsPerPublish = -5 := rfl
    rw [h5] at h
    exact absurd h (by norm_num)
  · intro h
    have h2 : (modify (mkSubscription opts50) paramsNeg)._keep_alive_counter = 2 := rfl
    rw [h] at h2
    exact absurd h2 (by norm_num)

/-- C4 (amended): `modify` increments `modifyCount` by exactly 1,
clamps the new `publishingInterval` into `[100, 2592000000]` and the
new `maxKeepAliveCount` into `[2, 12000]`, raises the new
`lifeTimeCount` to at least three times the new `maxKeepAliveCount`,
assigns `maxNotificationsPerPublish` and `priority` verbatim (no
clamping), resets the life-time counter to 0, and restarts the ticker —
which leaves the keep-alive counter re-seeded at the new
`maxKeepAliveCount` (not 0), the state NORMAL and the timer armed. -/
theorem c4_modify_amended (s : Subscription) (param : ModifyParams) :
    (modify s param).modifyCount = s.modifyCount + 1 ∧
    minimumPublishingInterval ≤ (modify s param).publishingInterval ∧
    (modify s param).publishingInterval ≤ maximumPublishingInterval ∧
    minimumMaxKeepAliveCount ≤ (modify s param).maxKeepAliveCount ∧
    (modify s param).maxKeepAliveCount ≤ maximumMaxKeepAliveCount ∧
    3 * (modify s param).maxKeepAliveCount ≤ (modify s param).lifeTimeCount ∧
    (modify s param).maxNotificationsPerPublish = param.maxNotificationsPerPublish ∧
    (modify s param).priority = param.priority ∧
    (modify s param)._life_time_counter = 0 ∧
    (modify s param)._keep_alive_counter = (modify s param).maxKeepAliveCount ∧
    (modify s param).state = SubscriptionState.NORMAL ∧
    (modify s param).timerId = true := by
  simp only [modify, start_stop_timer, _adjust_publishing_interval, _adjust_maxKeepAliveCount,
    _adjust_lifeTimeCount, jsOr, resetLifeTimeAndKeepAliveCounters, resetKeepAliveCounter,
    resetLifeTimeCounter, minimumPublishingInterval, defaultPublishingInterval,
    maximumPublishingInterval, minimumMaxKeepAliveCount, maximumMaxKeepAliveCount]
  rcases param.requestedPublishingInterval with _ | rpi <;>
    rcases param.requestedMaxKeepAliveCount with _ | rmk <;>
      rcases param.requestedLifetimeCount with _ | rlt <;>
        refine ⟨?_, ?_, ?_, ?_, ?_, ?_, ?_, ?_, ?_, ?_, ?_, ?_⟩ <;>
          first | trivial | (split_ifs <;> omega)

/-- One `removeMonitoredItem` step only rewrites the `monitoredItems`
map (deleting the key if present). -/
theorem removeMonitoredItem_fst (s : Subscription) (key : Nat) :
    (removeMonitoredItem s key).1 =
      { s with monitoredItems := s.monitoredItems.filter (fun p => p.1 != key) } := by
  unfold removeMonitoredItem
  split
  · rfl
  · next h =>
      have hall : ∀ p ∈ s.monitoredItems, (p.1 != key) = true := by
        intro p hp
        simp only [List.any_eq_true, not_exists, not_and] at h
        simpa using fun heq => (h p hp) (by simpa using heq)
      rw [List.filter_eq_self.mpr hall]

/-- Folding `removeMonitoredItem` over a list of keys only rewrites the
`monitoredItems` map, by the corresponding fold of deletions. -/
theorem foldl_remove (keys : List Nat) :
    ∀ s : Subscription,
      keys.foldl (fun st key => (removeMonitoredItem st key).1) s =
        { s with monitoredItems :=
            keys.foldl (fun m key => m.filter (fun p => p.1 != key)) s.monitoredItems } := by
  induction keys with
  | nil => intro s; rfl
  | cons k ks ih =>
      intro s
      rw [List.foldl_cons]
      rw [removeMonitoredItem_fst s k, ih, List.foldl_cons]

/-- Deleting every key of a map empties it. -/
theorem foldl_filter_nil (keys : List Nat) :
    ∀ l : List (Nat × MonitoredItem), (∀ p ∈ l, p.1 ∈ keys) →
      keys.foldl (fun m key => m.filter (fun p => p.1 != key)) l = [] := by
  induction keys with
  | nil =>
      intro l h
      exact List.eq_nil_iff_forall_not_mem.mpr fun p hp => (List.not_mem_nil p.1) (h p hp)
  | cons k ks ih =>
      intro l h
      simp only [List.foldl_cons]
      refine ih _ fun p hp => ?_
      rw [List.mem_filter] at hp
      rcases List.mem_cons.mp (h p hp.1) with h1 | h1
      · exact absurd h1 (by simpa using hp.2)
      · exact h1

/-- The record appended by `terminate`'s final
`addNotificationMessage`. -/
def badTimeoutRec (s : Subscription) : NotificationRec :=
  { notification :=
      { sequenceNumber := s._sequence_number_generator,
        notificationData := [NotificationData.statusChangeNotification StatusCodes.BadTimeout] },
    start_tick := s.publishIntervalCount,
    sequenceNumber := s._sequence_number_generator }

/-- Normal form of `terminate` on a non-CLOSED subscription. -/
theorem terminate_not_closed (s : Subscription) (h : s.state ≠ SubscriptionState.CLOSED) :
    terminate s =
      { s with timerId := false,
               monitoredItems := [],
               _sequence_number_generator := s._sequence_number_generator + 1,
               _pending_notifications := s._pending_notifications ++ [badTimeoutRec s],
               state := SubscriptionState.CLOSED,
               events := s.events ++ [Event.terminated] } := by
  unfold terminate
  rw [if_neg h]
  have hstop : ∀ t : Subscription, _stop_timer t = { t with timerId := false } := by
    intro t
    unfold _stop_timer
    split
    · rfl
    · next ht =>
        have hf : t.timerId = false := by simpa using ht
        rw [← hf]
  simp only [hstop, foldl_remove, addNotificationMessage, emitEvent]
  rw [foldl_filter_nil _ s.monitoredItems (fun p hp => List.mem_map_of_mem Prod.fst hp)]
  rfl

/-- C9: `terminate` is idempotent: on a CLOSED subscription it is a
no-op leaving the whole state unchanged, and the first call on a
non-CLOSED subscription stops the timer, removes every monitored item
(each one's own `terminate()` being an item-side effect), enqueues the
final `StatusChangeNotification(BadTimeout)` message, and sets the
state to CLOSED, so any subsequent call is the no-op case. -/
theorem c9_terminate_idempotent (s : Subscription) :
    terminate (terminate s) = terminate s ∧
    (s.state = SubscriptionState.CLOSED → terminate s = s) ∧
    (s.state ≠ SubscriptionState.CLOSED →
      (terminate s).state = SubscriptionState.CLOSED ∧
      (terminate s).timerId = false ∧
      (terminate s).monitoredItems = [] ∧
      (terminate s)._pending_notifications =
        s._pending_notifications ++ [badTimeoutRec s]) := by
  have hclosed : ∀ t : Subscription, t.state = SubscriptionState.CLOSED → terminate t = t := by
    intro t ht; unfold terminate; rw [if_pos ht]
  refine ⟨?_, hclosed s, fun h => ?_⟩
  · by_cases h : s.state = SubscriptionState.CLOSED
    · rw [hclosed s h, hclosed s h]
    · rw [terminate_not_closed s h]
      exact hclosed _ rfl
  · rw [terminate_not_closed s h]
    exact ⟨rfl, rfl, rfl, rfl⟩

/-- C9 witness: terminating a fresh (NORMAL) subscription and
terminating it again. -/
theorem c9_witness :
    terminate (terminate (mkSubscription opts50)) = terminate (mkSubscription opts50) ∧
    (terminate (mkSubscription opts50)).state = SubscriptionState.CLOSED ∧
    (terminate (mkSubscription opts50)).timerId = false ∧
    (terminate (mkSubscription opts50)).monitoredItems = [] := by
  have h := c9_terminate_idempotent (mkSubscription opts50)
  have h3 := h.2.2 (by decide)
  exact ⟨h.1, h3.1, h3.2.1, h3.2.2.1⟩

/-- C10: a tick on which the life time has not run out
(`_life_time_counter + 1 < lifeTimeCount`) and the Publish Engine has
no parked publish request increments the life-time counter, moves the
subscription to LATE and ends there: the keep-alive counter is not
touched, no keep-alive is attempted (the event log gains only
`perform_update`), no sequence number is burned and no notification is
assembled — whatever the pending queue and `publishingEnabled` say. -/
theorem c10_tick_no_request_goes_late (publishEngine : PublishEngine) (s : Subscription)
    (hcount : publishEngine.pendingPublishRequestCount = 0)
    (hlife : s._life_time_counter + 1 < s.lifeTimeCount) :
    _tick publishEngine s =
      Except.ok { s with publishIntervalCount := s.publishIntervalCount + 1,
                         events := s.events ++ [Event.perform_update],
                         _life_time_counter := s._life_time_counter + 1,
                         state := SubscriptionState.LATE } := by
  unfold _tick
  simp only [prepareNotification, if_pos hcount, emitEvent, increaseLifeTimeCounter,
    discard_ok, lifeTimeHasExpired, decide_eq_true_eq]
  rw [if_neg (by omega)]

/-- C10 witness: a fresh subscription ticking against an engine with no
parked request. -/
theorem c10_witness :
    _tick engineNoRequest (mkSubscription opts50) =
      Except.ok { mkSubscription opts50 with
                    publishIntervalCount := 1,
                    events := [Event.perform_update],
                    _life_time_counter := 1,
                    state := SubscriptionState.LATE } := by
  have h := c10_tick_no_request_goes_late engineNoRequest (mkSubscription opts50)
    rfl (by decide)
  simpa using h

/-- C6: `createMonitoredItem` validates in a fixed order — unknown
node, Value attribute on a non-Variable, INVALID attribute, malformed
index range, data encoding named on a non-Value attribute, unsupported
data encoding, then filter validation — returning the first failing
check's status with the subscription (registry included) unchanged;
only when every check passes is a fresh item registered under
`monitoredItemIdCounter + 1` and a `Good` result with that id
produced (the id is fresh whenever existing ids are bounded by the
counter, which registration preserves). -/
theorem c6_createMonitoredItem_validation (s : Subscription) (addressSpace : AddressSpace)
    (req : MonitoredItemCreateRequest) :
    (addressSpace req.itemToMonitor.nodeId = none →
      createMonitoredItem s addressSpace req =
        (s, { statusCode := StatusCodes.BadNodeIdUnknown, monitoredItemId := 0 })) ∧
    (∀ node, addressSpace req.itemToMonitor.nodeId = some node →
      ((req.itemToMonitor.attributeId = AttributeIds.Value ∧ ¬ node.isVariable →
          createMonitoredItem s addressSpace req =
            (s, { statusCode := StatusCodes.BadAttributeIdInvalid, monitoredItemId := 0 })) ∧
        (¬ (req.itemToMonitor.attributeId = AttributeIds.Value ∧ ¬ node.isVariable) →
          req.itemToMonitor.attributeId = AttributeIds.INVALID →
          createMonitoredItem s addressSpace req =
            (s, { statusCode := StatusCodes.BadAttributeIdInvalid, monitoredItemId := 0 })) ∧
        (¬ (req.itemToMonitor.attributeId = AttributeIds.Value ∧ ¬ node.isVariable) →
          req.itemToMonitor.attributeId ≠ AttributeIds.INVALID →
          ¬ req.itemToMonitor.indexRangeIsValid →
          createMonitoredItem s addressSpace req =
            (s, { statusCode := StatusCodes.BadIndexRangeInvalid, monitoredItemId := 0 })) ∧
        (¬ (req.itemToMonitor.attributeId = AttributeIds.Value ∧ ¬ node.isVariable) →
          req.itemToMonitor.attributeId ≠ AttributeIds.INVALID →
          req.itemToMonitor.indexRangeIsValid →
          req.itemToMonitor.dataEncodingNameIsSet ∧
            req.itemToMonitor.attributeId ≠ AttributeIds.Value →
          createMonitoredItem s addressSpace req =
            (s, { statusCode := StatusCodes.BadDataEncodingInvalid, monitoredItemId := 0 })) ∧
        (¬ (req.itemToMonitor.attributeId = AttributeIds.Value ∧ ¬ node.isVariable) →
          req.itemToMonitor.attributeId ≠ AttributeIds.INVALID →
          req.itemToMonitor.indexRangeIsValid →
          ¬ (req.itemToMonitor.dataEncodingNameIsSet ∧
              req.itemToMonitor.attributeId ≠ AttributeIds.Value) →
          ¬ req.itemToMonitor.dataEncodingIsValid →
          createMonitoredItem s addressSpace req =
            (s, { statusCode := StatusCodes.BadDataEncodingUnsupported, monitoredItemId := 0 })) ∧
        (¬ (req.itemToMonitor.attributeId = AttributeIds.Value ∧ ¬ node.isVariable) →
          req.itemToMonitor.attributeId ≠ AttributeIds.INVALID →
          req.itemToMonitor.indexRangeIsValid →
          ¬ (req.itemToMonitor.dataEncodingNameIsSet ∧
              req.itemToMonitor.attributeId ≠ AttributeIds.Value) →
          req.itemToMonitor.dataEncodingIsValid →
          __validateFilter req.requestedParameters.filter req.itemToMonitor node ≠
            StatusCodes.Good →
          createMonitoredItem s addressSpace req =
            (s, { statusCode :=
                    __validateFilter req.requestedParameters.filter req.itemToMonitor node,
                  monitoredItemId := 0 })) ∧
        (¬ (req.itemToMonitor.attributeId = AttributeIds.Value ∧ ¬ node.isVariable) →
          req.itemToMonitor.attributeId ≠ AttributeIds.INVALID →
          req.itemToMonitor.indexRangeIsValid →
          ¬ (req.itemToMonitor.dataEncodingNameIsSet ∧
              req.itemToMonitor.attributeId ≠ AttributeIds.Value) →
          req.itemToMonitor.dataEncodingIsValid →
          __validateFilter req.requestedParameters.filter req.itemToMonitor node =
            StatusCodes.Good →
          createMonitoredItem s addressSpace req =
            ({ s with monitoredItemIdCounter := s.monitoredItemIdCounter + 1,
                      monitoredItems := s.monitoredItems ++
                        [(s.monitoredItemIdCounter + 1, { itemNotifications := [] })],
                      events := s.events ++ [Event.monitoredItemCreated] },
              { statusCode := StatusCodes.Good,
                monitoredItemId := s.monitoredItemIdCounter + 1 }) ∧
          ((∀ k ∈ s.monitoredItems.map Prod.fst, k ≤ s.monitoredItemIdCounter) →
            s.monitoredItemIdCounter + 1 ∉ s.monitoredItems.map Prod.fst)))) := by
  refine ⟨fun hnone => by simp only [createMonitoredItem, hnone], fun node hnode => ?_⟩
  refine ⟨fun h2 => ?_, fun h2 h3 => ?_, fun h2 h3 h4 => ?_, fun h2 h3 h4 h5 => ?_,
    fun h2 h3 h4 h5 h6 => ?_, fun h2 h3 h4 h5 h6 hf => ?_, fun h2 h3 h4 h5 h6 hf => ?_⟩
  · simp only [createMonitoredItem, hnode, if_pos h2]
  · simp only [createMonitoredItem, hnode, if_neg h2, if_pos h3]
  · simp only [createMonitoredItem, hnode, if_neg h2, if_neg h3, if_pos h4]
  · simp only [createMonitoredItem, hnode, if_neg h2, if_neg h3,
      if_neg (not_not_intro h4), if_pos h5]
  · simp only [createMonitoredItem, hnode, if_neg h2, if_neg h3,
      if_neg (not_not_intro h4), if_neg h5, if_pos h6]
  · simp only [createMonitoredItem, hnode, if_neg h2, if_neg h3,
      if_neg (not_not_intro h4), if_neg h5, if_neg (not_not_intro h6), if_pos hf]
  · refine ⟨?_, fun hbound hmem => by have := hbound _ hmem; omega⟩
    simp only [createMonitoredItem, hnode, if_neg h2, if_neg h3,
      if_neg (not_not_intro h4), if_neg h5, if_neg (not_not_intro h6),
      if_neg (not_not_intro hf), _createMonitoredItemStep2, emitEvent]

/-- C6 witness inputs: a Value-attribute request with a valid index
range, unset encoding name, valid encoding and no filter; an address
space resolving node 1 to a numeric Variable; and an empty address
space. -/
def reqValue : MonitoredItemCreateRequest :=
  { itemToMonitor :=
      { nodeId := 1, attributeId := AttributeIds.Value, indexRangeIsValid := true,
        dataEncodingNameIsSet := false, dataEncodingIsValid := true },
    requestedParameters := { filter := none } }

def aspVar : AddressSpace := fun n =>
  if n = 1 then some { isVariable := true, dataType_isSupertypeOf_Number := true } else none

def aspEmpty : AddressSpace := fun _ => none

/-- C6 witness: the unknown-node failure leaves everything untouched,
and the all-checks-pass request registers item 1 with `Good`. -/
theorem c6_witness :
    createMonitoredItem (mkSubscription opts50) aspEmpty reqValue =
      (mkSubscription opts50,
        { statusCode := StatusCodes.BadNodeIdUnknown, monitoredItemId := 0 }) ∧
    (createMonitoredItem (mkSubscription opts50) aspVar reqValue).2 =
      { statusCode := StatusCodes.Good, monitoredItemId := 1 } ∧
    (createMonitoredItem (mkSubscription opts50) aspVar reqValue).1.monitoredItems =
      [(1, { itemNotifications := [] })] := by
  have h1 := (c6_createMonitoredItem_validation (mkSubscription opts50) aspEmpty reqValue).1 rfl
  have h8 := (((c6_createMonitoredItem_validation (mkSubscription opts50) aspVar
      reqValue).2 { isVariable := true, dataType_isSupertypeOf_Number := true } rfl).2.2.2.2.2.2)
    (by decide) (by decide) (by decide) (by decide) (by decide) rfl
  refine ⟨h1, ?_, ?_⟩
  · rw [h8.1]
    rfl
  · rw [h8.1]
    rfl

end Opcua
